import Mathlib

/-!
Shallow embedding of `src/controllers/usuarioController.js`: five CRUD
handlers over a `usuarios` table, with field validation, case-insensitive
email-uniqueness checks, password hashing (modelled as an abstract
`hash : String → String` parameter) and JSON responses.

JavaScript request-body values are modelled by `JSValue` (undefined, null,
boolean, integer number, NaN, string); `Number(·)` coercion is modelled by
`toNumber` (`none` standing for NaN).  The database is a list of rows plus
the auto-increment counter and a creation timestamp; `db.query` failures are
modelled by an optional error message `dbErr` that, when present, makes the
first store access of a handler throw.
-/

namespace UsuarioController

/-- A JavaScript value as it can appear in a request body or a table row. -/
inductive JSValue where
  | undef : JSValue
  | null : JSValue
  | bool : Bool → JSValue
  | num : Int → JSValue
  | nan : JSValue
  | str : String → JSValue
deriving DecidableEq

/-- JavaScript truthiness (`!v` negates this). -/
def toBool : JSValue → Bool
  | .undef => false
  | .null => false
  | .bool b => b
  | .num n => n != 0
  | .nan => false
  | .str s => s != ""

/-- `typeof v === 'string'`. -/
def isStr : JSValue → Bool
  | .str _ => true
  | _ => false

/-- The underlying string of a string value (only used under an `isStr` guard,
as the JS code only calls string methods after a `typeof` check). -/
def strOf : JSValue → String
  | .str s => s
  | _ => ""

/-- Whitespace as recognised by the string methods used in the controller. -/
def jsIsWS (c : Char) : Bool :=
  c == ' ' || c == '\t' || c == '\n' || c == '\r'

/-- `s.trim()`: remove leading and trailing whitespace. -/
def jsTrim (s : String) : String :=
  ⟨((s.data.dropWhile jsIsWS).reverse.dropWhile jsIsWS).reverse⟩

/-- `s.toLowerCase()` (also `LOWER(...)` on the SQL side). -/
def jsToLower (s : String) : String :=
  ⟨s.data.map Char.toLower⟩

/-- `s.includes(c)` for a one-character needle. -/
def jsContains (s : String) (c : Char) : Bool :=
  s.data.contains c

/-- `s.length`. -/
def jsLength (s : String) : Nat :=
  s.data.length

/-- `Number(s)` on a string: whitespace-trimmed empty string is 0, an optional
sign followed by decimal digits parses as an integer, anything else is NaN. -/
def parseNum (s : String) : Option Int :=
  let t := jsTrim s
  if t = "" then some 0
  else
    let core : Bool × List Char :=
      match t.data with
      | '-' :: rest => (true, rest)
      | '+' :: rest => (false, rest)
      | l => (false, l)
    if core.2 ≠ [] ∧ core.2.all Char.isDigit then
      let n : Nat := core.2.foldl (fun acc c => acc * 10 + (c.toNat - '0'.toNat)) 0
      some (if core.1 then -(n : Int) else (n : Int))
    else none

/-- JavaScript `Number(·)` coercion; `none` stands for NaN. -/
def toNumber : JSValue → Option Int
  | .undef => none
  | .null => some 0
  | .bool b => some (if b then 1 else 0)
  | .num n => some n
  | .nan => none
  | .str s => parseNum s

/-! ### Per-field validation predicates, straight from the source.

`create…Invalid` are the checks of `createUsuario`
(`!v || typeof v !== 'string' || …`); `update…Invalid` are the checks of
`updateUsuario` (`typeof v !== 'string' || …`, no truthiness test). -/

/-- `!nombre || typeof nombre !== 'string' || nombre.trim() === ''`. -/
def createNombreInvalid (v : JSValue) : Bool :=
  !toBool v || !isStr v || jsTrim (strOf v) == ""

/-- `!email || typeof email !== 'string' || !email.includes('@')`. -/
def createEmailInvalid (v : JSValue) : Bool :=
  !toBool v || !isStr v || !jsContains (strOf v) '@'

/-- `!password || typeof password !== 'string' || password.length < 6`. -/
def createPasswordInvalid (v : JSValue) : Bool :=
  !toBool v || !isStr v || decide (jsLength (strOf v) < 6)

/-- `!['cliente', 'admin'].includes(rol)` in `createUsuario`. -/
def createRolInvalid (v : JSValue) : Bool :=
  !(v == .str "cliente" || v == .str "admin")

/-- `![0, 1].includes(Number(activo))` in `createUsuario`. -/
def createActivoInvalid (v : JSValue) : Bool :=
  !(toNumber v == some 0 || toNumber v == some 1)

/-- `typeof nombre !== 'string' || nombre.trim() === ''` in `updateUsuario`. -/
def updateNombreInvalid (v : JSValue) : Bool :=
  !isStr v || jsTrim (strOf v) == ""

/-- `typeof email !== 'string' || !email.includes('@')` in `updateUsuario`. -/
def updateEmailInvalid (v : JSValue) : Bool :=
  !isStr v || !jsContains (strOf v) '@'

/-- `typeof password !== 'string' || password.length < 6` in `updateUsuario`. -/
def updatePasswordInvalid (v : JSValue) : Bool :=
  !isStr v || decide (jsLength (strOf v) < 6)

/-- `!['cliente', 'admin'].includes(rol)` in `updateUsuario`. -/
def updateRolInvalid (v : JSValue) : Bool :=
  !(v == .str "cliente" || v == .str "admin")

/-- `![0, 1].includes(Number(activo))` in `updateUsuario`. -/
def updateActivoInvalid (v : JSValue) : Bool :=
  !(toNumber v == some 0 || toNumber v == some 1)

/-! ### JSON responses -/

/-- A JSON document as produced by `res.json(...)`. -/
inductive JSON where
  | obj : List (String × JSON) → JSON
  | arr : List JSON → JSON
  | str : String → JSON
  | num : Int → JSON
  | bool : Bool → JSON
  | null : JSON

/-- Serialization of a raw JS value echoed into a response object
(`JSON.stringify` turns NaN into null; `undefined` never reaches a response
object field in this controller). -/
def jsonOfVal : JSValue → JSON
  | .undef => .null
  | .null => .null
  | .bool b => .bool b
  | .num n => .num n
  | .nan => .null
  | .str s => .str s

/-- An HTTP response: status code plus optional JSON body
(`none` for the 204 `res.send()` of delete). -/
structure Response where
  status : Nat
  body : Option JSON

/-- `res.status(400).json({ error: s })`. -/
def err400 (s : String) : Response := ⟨400, some (.obj [("error", .str s)])⟩

/-- `res.status(500).json({ error: s })`. -/
def err500 (s : String) : Response := ⟨500, some (.obj [("error", .str s)])⟩

/-- `res.status(404).json({ message: s })`. -/
def msg404 (s : String) : Response := ⟨404, some (.obj [("message", .str s)])⟩

/-! ### The store -/

/-- A row of the `usuarios` table.  `rol` and `activo` hold the raw values the
controller passes as query parameters (the controller inserts them unconverted,
so e.g. a numeric-string `activo` is stored as the string it arrived as). -/
structure Row where
  idusuario : Nat
  nombre : String
  email : String
  password : String
  rol : JSValue
  fechacreacion : Nat
  activo : JSValue
deriving DecidableEq

/-- The users table plus the store-assigned auto-increment id and the
creation timestamp the store would assign next. -/
structure Store where
  rows : List Row
  nextId : Nat
  now : Nat
deriving DecidableEq

/-- A create/update request body: the five recognised properties, each
`undef` when absent. -/
structure Body where
  nombre : JSValue
  email : JSValue
  password : JSValue
  rol : JSValue
  activo : JSValue
deriving DecidableEq

/-- The projection `SELECT idusuario, nombre, email, rol, fechacreacion,
activo` of a row, as the JSON object returned by the read handlers. -/
def publicRow (r : Row) : JSON :=
  .obj [("idusuario", .num (Int.ofNat r.idusuario)),
        ("nombre", .str r.nombre),
        ("email", .str r.email),
        ("rol", jsonOfVal r.rol),
        ("fechacreacion", .num (Int.ofNat r.fechacreacion)),
        ("activo", jsonOfVal r.activo)]

/-! ### Handlers -/

/-- `getAllUsuarios`: list all users with the safe projection; on a store
error, 500 with the underlying message. -/
def getAllUsuarios (st : Store) (dbErr : Option String) : Response :=
  match dbErr with
  | some m => err500 m
  | none => ⟨200, some (.arr (st.rows.map publicRow))⟩

/-- `getUsuarioById`: fetch one user by id; 404 when no row matches; on a
store error, 500 with the underlying message. -/
def getUsuarioById (st : Store) (id : Nat) (dbErr : Option String) : Response :=
  match dbErr with
  | some m => err500 m
  | none =>
    match st.rows.find? (fun r => r.idusuario == id) with
    | none => msg404 "Usuario no encontrado"
    | some r => ⟨200, some (publicRow r)⟩

/-- The `rol` value after destructuring with default
(`const { rol = 'cliente' } = req.body`). -/
def rolWithDefault (body : Body) : JSValue :=
  if body.rol == .undef then JSValue.str "cliente" else body.rol

/-- The `activo` value after destructuring with default
(`const { activo = 1 } = req.body`). -/
def activoWithDefault (body : Body) : JSValue :=
  if body.activo == .undef then JSValue.num 1 else body.activo

/-- The "Validaciones básicas" block of `createUsuario`: the response of the
first failing check in source order (nombre, email, password, rol, activo),
or `none` when all five pass. -/
def createValidationError (body : Body) : Option Response :=
  if createNombreInvalid body.nombre then
    some (err400 "El campo nombre es requerido y debe ser una cadena válida")
  else if createEmailInvalid body.email then
    some (err400 "El campo email es requerido y debe ser un email válido")
  else if createPasswordInvalid body.password then
    some (err400 "El campo password es requerido y debe tener al menos 6 caracteres")
  else if createRolInvalid (rolWithDefault body) then
    some (err400 "El campo rol debe ser \"cliente\" o \"admin\"")
  else if createActivoInvalid (activoWithDefault body) then
    some (err400 "El campo activo debe ser 0 o 1")
  else none

/-- The row `createUsuario` inserts: trimmed nombre and email, the password
hash, and the raw (defaulted) `rol` and `activo` values. -/
def createdRow (hash : String → String) (st : Store) (body : Body) : Row :=
  ⟨st.nextId, jsTrim (strOf body.nombre), jsTrim (strOf body.email),
   hash (strOf body.password), rolWithDefault body, st.now, activoWithDefault body⟩

/-- `createUsuario`: validate nombre, email, password, rol, activo in order
(defaults `rol = 'cliente'`, `activo = 1` applied for absent properties), then
check for an existing row whose lowercased email equals the lowercased
(untrimmed) input email, hash the password and insert the row with trimmed
nombre and email and the raw `rol`/`activo` values. -/
def createUsuario (hash : String → String) (st : Store) (body : Body)
    (dbErr : Option String) : Response × Store :=
  match createValidationError body with
  | some e => (e, st)
  | none =>
    match dbErr with
    | some _ => (err500 "Ocurrió un error interno al crear el usuario", st)
    | none =>
      if st.rows.any (fun r => jsToLower r.email == jsToLower (strOf body.email)) then
        (err400 ("Ya existe un usuario con el email \"" ++ strOf body.email ++ "\""), st)
      else
        (⟨201, some (.obj [("idusuario", .num (Int.ofNat st.nextId)),
                           ("nombre", .str (jsTrim (strOf body.nombre))),
                           ("email", .str (jsTrim (strOf body.email))),
                           ("rol", jsonOfVal (rolWithDefault body)),
                           ("activo", jsonOfVal (activoWithDefault body))])⟩,
         ⟨st.rows ++ [createdRow hash st body], st.nextId + 1, st.now⟩)

/-! ### The update path -/

/-- The accumulated `updates`/`values` pairs of `updateUsuario`, keyed by
column: `SET` clauses are per-column, so the list of clauses is represented as
one optional value per column. -/
structure UpdPlan where
  nombre : Option String
  email : Option String
  password : Option String
  rol : Option JSValue
  activo : Option JSValue
deriving DecidableEq

/-- `updates.length === 0`. -/
def planEmpty (p : UpdPlan) : Bool :=
  p.nombre.isNone && p.email.isNone && p.password.isNone
    && p.rol.isNone && p.activo.isNone

/-- The `nombre` block of `updateUsuario`: skip when undefined, reject invalid
values, otherwise queue `nombre = nombre.trim()`. -/
def planNombre (v : JSValue) : Except Response (Option String) :=
  if v == .undef then .ok none
  else if updateNombreInvalid v then
    .error (err400 "El campo nombre debe ser una cadena válida")
  else .ok (some (jsTrim (strOf v)))

/-- The `email` block of `updateUsuario`: skip when undefined, reject invalid
values, reject when another row (different id) has the same lowercased email,
otherwise queue `email = email.trim()`. -/
def planEmail (st : Store) (id : Nat) (v : JSValue) : Except Response (Option String) :=
  if v == .undef then .ok none
  else if updateEmailInvalid v then
    .error (err400 "El campo email debe ser un correo válido")
  else if st.rows.any (fun r => jsToLower r.email == jsToLower (strOf v) && r.idusuario != id) then
    .error (err400 ("Ya existe otro usuario con el email \"" ++ strOf v ++ "\""))
  else .ok (some (jsTrim (strOf v)))

/-- The `password` block of `updateUsuario`: skip when undefined, reject
invalid values, otherwise hash and queue the hash. -/
def planPassword (hash : String → String) (v : JSValue) : Except Response (Option String) :=
  if v == .undef then .ok none
  else if updatePasswordInvalid v then
    .error (err400 "El campo password debe tener al menos 6 caracteres")
  else .ok (some (hash (strOf v)))

/-- The `rol` block of `updateUsuario`: skip when undefined, reject values
outside {cliente, admin}, otherwise queue the raw value. -/
def planRol (v : JSValue) : Except Response (Option JSValue) :=
  if v == .undef then .ok none
  else if updateRolInvalid v then
    .error (err400 "El campo rol debe ser \"cliente\" o \"admin\"")
  else .ok (some v)

/-- The `activo` block of `updateUsuario`: skip when undefined, reject values
whose `Number(·)` coercion is not 0 or 1, otherwise queue the raw value. -/
def planActivo (v : JSValue) : Except Response (Option JSValue) :=
  if v == .undef then .ok none
  else if updateActivoInvalid v then
    .error (err400 "El campo activo debe ser 0 o 1")
  else .ok (some v)

/-- The validation/accumulation pass of `updateUsuario`, in source order
(nombre, email, password, rol, activo): the first failing field short-circuits
with its 400 response, otherwise the accumulated plan is returned. -/
def updPlan (st : Store) (id : Nat) (hash : String → String) (body : Body) :
    Except Response UpdPlan :=
  match planNombre body.nombre with
  | .error e => .error e
  | .ok pn =>
    match planEmail st id body.email with
    | .error e => .error e
    | .ok pe =>
      match planPassword hash body.password with
      | .error e => .error e
      | .ok pp =>
        match planRol body.rol with
        | .error e => .error e
        | .ok pr =>
          match planActivo body.activo with
          | .error e => .error e
          | .ok pa => .ok ⟨pn, pe, pp, pr, pa⟩

/-- Effect of the generated `UPDATE usuarios SET … WHERE idusuario = ?`
statement on one matching row: exactly the queued columns are overwritten. -/
def applyPlan (r : Row) (p : UpdPlan) : Row :=
  { r with
    nombre := p.nombre.getD r.nombre,
    email := p.email.getD r.email,
    password := p.password.getD r.password,
    rol := p.rol.getD r.rol,
    activo := p.activo.getD r.activo }

/-- The `updatedFields` response object: nombre, email, rol, activo in that
order, only for supplied fields, with trimmed nombre/email and raw rol/activo;
password is never echoed. -/
def updResponseFields (p : UpdPlan) : List (String × JSON) :=
  (match p.nombre with | some s => [("nombre", JSON.str s)] | none => []) ++
  (match p.email with | some s => [("email", JSON.str s)] | none => []) ++
  (match p.rol with | some v => [("rol", jsonOfVal v)] | none => []) ++
  (match p.activo with | some v => [("activo", jsonOfVal v)] | none => [])

/-- `updateUsuario`: reject a body with none of the five properties, 404 on a
missing id, validate and accumulate the supplied fields in order, then run a
single UPDATE over the queued columns and echo the updated fields. -/
def updateUsuario (hash : String → String) (st : Store) (id : Nat) (body : Body)
    (dbErr : Option String) : Response × Store :=
  if body.nombre == .undef && body.email == .undef && body.password == .undef
      && body.rol == .undef && body.activo == .undef then
    (err400 "Debe proporcionar al menos un campo para actualizar: nombre, email, password, rol, activo", st)
  else
    match dbErr with
    | some _ => (err500 "Ocurrió un error interno al actualizar el usuario", st)
    | none =>
      if !(st.rows.any (fun r => r.idusuario == id)) then
        (msg404 "Usuario no encontrado", st)
      else
        match updPlan st id hash body with
        | .error e => (e, st)
        | .ok p =>
          if planEmpty p then (err400 "No hay datos válidos para actualizar", st)
          else
            (⟨200, some (.obj (updResponseFields p))⟩,
             ⟨st.rows.map (fun r => if r.idusuario == id then applyPlan r p else r),
              st.nextId, st.now⟩)

/-- `deleteUsuario`: delete the rows matching the id; 404 when nothing was
affected; 204 with empty body otherwise; on a store error, 500 with the
underlying message. -/
def deleteUsuario (st : Store) (id : Nat) (dbErr : Option String) : Response × Store :=
  match dbErr with
  | some m => (err500 m, st)
  | none =>
    let remaining := st.rows.filter (fun r => !(r.idusuario == id))
    if st.rows.length - remaining.length == 0 then
      (msg404 "Usuario no encontrado", ⟨remaining, st.nextId, st.now⟩)
    else
      (⟨204, none⟩, ⟨remaining, st.nextId, st.now⟩)

/-! ### Specification-side predicates -/

mutual
/-- No object anywhere in a JSON document carries a `password` or
`passwordHash` key. -/
def noPass : JSON → Bool
  | .obj fs => noPassFields fs
  | .arr es => noPassArr es
  | .str _ => true
  | .num _ => true
  | .bool _ => true
  | .null => true

/-- `noPass` over the fields of an object. -/
def noPassFields : List (String × JSON) → Bool
  | [] => true
  | (k, v) :: rest =>
    !(k == "password") && !(k == "passwordHash") && noPass v && noPassFields rest

/-- `noPass` over the elements of an array. -/
def noPassArr : List JSON → Bool
  | [] => true
  | v :: rest => noPass v && noPassArr rest
end

/-- A response body (when present) carries no password field anywhere. -/
def noPassResp (r : Response) : Bool :=
  match r.body with
  | none => true
  | some j => noPass j

/-- The error-body convention of the controller: 400/500 responses carry
`{ error: string }`, 404 responses carry `{ message: string }`. -/
def errShape (r : Response) : Prop :=
  ((r.status = 400 ∨ r.status = 500) →
    ∃ s, r.body = some (JSON.obj [("error", JSON.str s)])) ∧
  (r.status = 404 →
    ∃ s, r.body = some (JSON.obj [("message", JSON.str s)]))

/-- The email-uniqueness invariant: no two rows have case-insensitively
equal email. -/
def emailsOK (rows : List Row) : Prop :=
  rows.Pairwise (fun a b => jsToLower a.email ≠ jsToLower b.email)

instance (rows : List Row) : Decidable (emailsOK rows) :=
  inferInstanceAs (Decidable (rows.Pairwise fun (a b : Row) => jsToLower a.email ≠ jsToLower b.email))

/-- The id-uniqueness invariant of the data model: one row per id. -/
def idsOK (rows : List Row) : Prop :=
  rows.Pairwise (fun a b => a.idusuario ≠ b.idusuario)

instance (rows : List Row) : Decidable (idsOK rows) :=
  inferInstanceAs (Decidable (rows.Pairwise fun (a b : Row) => a.idusuario ≠ b.idusuario))

/-- The stored role values the data model allows. -/
def rolOK (v : JSValue) : Prop :=
  v = .str "cliente" ∨ v = .str "admin"

/-- A stored `activo` value that coerces to 0 or 1. -/
def activoCoercesOK (v : JSValue) : Prop :=
  toNumber v = some 0 ∨ toNumber v = some 1

/-! ### Concrete fixtures for witnesses and counterexamples -/

/-- A concrete stand-in for `bcrypt.hash(·, 10)`. -/
def hId : String → String := fun s => "H" ++ s

/-- The empty store. -/
def st0 : Store := ⟨[], 1, 100⟩

/-- A store holding one user with email `a@x.com`. -/
def st1 : Store := ⟨[⟨1, "Ana", "a@x.com", "h", .str "cliente", 50, .num 1⟩], 2, 100⟩

/-- A well-formed creation body. -/
def bodyAna : Body := ⟨.str "Ana", .str "ana@x.com", .str "secret1", .undef, .undef⟩

/-- A creation body whose email has a leading space but, once trimmed, equals
the email already stored in `st1`. -/
def bodyDup : Body := ⟨.str "Bob", .str " a@x.com", .str "secret1", .undef, .undef⟩

/-- A creation body with the given `activo` value. -/
def bodyAct (v : JSValue) : Body := ⟨.str "Ana", .str "b@x.com", .str "secret1", .undef, v⟩

/-- An update body with the given `activo` value and nothing else. -/
def updBodyAct (v : JSValue) : Body := ⟨.undef, .undef, .undef, .undef, v⟩

/-- An update body supplying only `rol: "admin"`. -/
def bodyRolAdmin : Body := ⟨.undef, .undef, .undef, .str "admin", .undef⟩

/-- An update body whose only field is `nombre: null`. -/
def bodyNullNombre : Body := ⟨.null, .undef, .undef, .undef, .undef⟩

/-- A creation body with a valid nombre and email but a short password. -/
def bodyShortPw : Body := ⟨.str "Ana", .str "ana@x.com", .str "abc", .undef, .undef⟩

/-- The all-absent update body. -/
def bodyEmpty : Body := ⟨.undef, .undef, .undef, .undef, .undef⟩

/-! ## Theorems -/

theorem noPass_jsonOfVal (v : JSValue) : noPass (jsonOfVal v) = true := by
  cases v <;> rfl

theorem noPass_publicRow (r : Row) : noPass (publicRow r) = true := by
  simp [publicRow, noPass, noPassFields, noPass_jsonOfVal]

theorem noPassArr_map_publicRow (rows : List Row) :
    noPassArr (rows.map publicRow) = true := by
  induction rows with
  | nil => rfl
  | cons r rest ih => simp [noPassArr, noPass_publicRow, ih]

theorem createValidationError_shape {body : Body} {e : Response}
    (h : createValidationError body = some e) : ∃ s, e = err400 s := by
  unfold createValidationError at h
  split_ifs at h <;> exact ⟨_, (Option.some.injEq _ _ ▸ h).symm⟩

theorem noPassResp_getAll (st : Store) (dbErr : Option String) :
    noPassResp (getAllUsuarios st dbErr) = true := by
  cases dbErr with
  | some m => rfl
  | none => simp [getAllUsuarios, noPassResp, noPass, noPassArr_map_publicRow]

theorem noPassResp_getById (st : Store) (id : Nat) (dbErr : Option String) :
    noPassResp (getUsuarioById st id dbErr) = true := by
  cases dbErr with
  | some m => rfl
  | none =>
    unfold getUsuarioById
    cases h : st.rows.find? (fun r => r.idusuario == id) with
    | none => rfl
    | some r => simp [noPassResp, noPass_publicRow]

theorem noPassResp_err400 (s : String) : noPassResp (err400 s) = true := rfl

theorem noPassResp_create (hash : String → String) (st : Store) (body : Body)
    (dbErr : Option String) : noPassResp (createUsuario hash st body dbErr).1 = true := by
  unfold createUsuario
  cases h : createValidationError body with
  | some e =>
    obtain ⟨s, rfl⟩ := createValidationError_shape h
    simp only [h]
    rfl
  | none =>
    simp only [h]
    cases dbErr with
    | some m => rfl
    | none =>
      cases hdup : st.rows.any (fun r => jsToLower r.email == jsToLower (strOf body.email)) with
      | true => simp [hdup, noPassResp, err400, noPass, noPassFields]
      | false => simp [hdup, noPassResp, noPass, noPassFields, noPass_jsonOfVal]



theorem planNombre_error {v : JSValue} {e : Response} (h : planNombre v = .error e) :
    ∃ s, e = err400 s := by
  unfold planNombre at h
  split_ifs at h <;>
    first
      | exact Except.noConfusion h
      | (injection h with h2; exact ⟨_, h2.symm⟩)

theorem planEmail_error {st : Store} {id : Nat} {v : JSValue} {e : Response}
    (h : planEmail st id v = .error e) : ∃ s, e = err400 s := by
  unfold planEmail at h
  split_ifs at h <;>
    first
      | exact Except.noConfusion h
      | (injection h with h2; exact ⟨_, h2.symm⟩)

theorem planPassword_error {hash : String → String} {v : JSValue} {e : Response}
    (h : planPassword hash v = .error e) : ∃ s, e = err400 s := by
  unfold planPassword at h
  split_ifs at h <;>
    first
      | exact Except.noConfusion h
      | (injection h with h2; exact ⟨_, h2.symm⟩)

theorem planRol_error {v : JSValue} {e : Response} (h : planRol v = .error e) :
    ∃ s, e = err400 s := by
  unfold planRol at h
  split_ifs at h <;>
    first
      | exact Except.noConfusion h
      | (injection h with h2; exact ⟨_, h2.symm⟩)

theorem planActivo_error {v : JSValue} {e : Response} (h : planActivo v = .error e) :
    ∃ s, e = err400 s := by
  unfold planActivo at h
  split_ifs at h <;>
    first
      | exact Except.noConfusion h
      | (injection h with h2; exact ⟨_, h2.symm⟩)

theorem updPlan_error_shape {st : Store} {id : Nat} {hash : String → String}
    {body : Body} {e : Response} (h : updPlan st id hash body = .error e) :
    ∃ s, e = err400 s := by
  unfold updPlan at h
  cases hn : planNombre body.nombre with
  | error e1 =>
    simp only [hn] at h
    injection h with h2
    exact h2 ▸ planNombre_error hn
  | ok pn =>
  simp only [hn] at h
  cases he : planEmail st id body.email with
  | error e1 =>
    simp only [he] at h
    injection h with h2
    exact h2 ▸ planEmail_error he
  | ok pe =>
  simp only [he] at h
  cases hp : planPassword hash body.password with
  | error e1 =>
    simp only [hp] at h
    injection h with h2
    exact h2 ▸ planPassword_error hp
  | ok pp =>
  simp only [hp] at h
  cases hr : planRol body.rol with
  | error e1 =>
    simp only [hr] at h
    injection h with h2
    exact h2 ▸ planRol_error hr
  | ok pr =>
  simp only [hr] at h
  cases ha : planActivo body.activo with
  | error e1 =>
    simp only [ha] at h
    injection h with h2
    exact h2 ▸ planActivo_error ha
  | ok pa =>
  simp only [ha] at h
  exact Except.noConfusion h

theorem updPlan_ok {st : Store} {id : Nat} {hash : String → String}
    {body : Body} {p : UpdPlan} (h : updPlan st id hash body = .ok p) :
    planNombre body.nombre = .ok p.nombre ∧
    planEmail st id body.email = .ok p.email ∧
    planPassword hash body.password = .ok p.password ∧
    planRol body.rol = .ok p.rol ∧
    planActivo body.activo = .ok p.activo := by
  unfold updPlan at h
  cases hn : planNombre body.nombre with
  | error e1 => simp only [hn] at h; exact Except.noConfusion h
  | ok pn =>
  simp only [hn] at h
  cases he : planEmail st id body.email with
  | error e1 => simp only [he] at h; exact Except.noConfusion h
  | ok pe =>
  simp only [he] at h
  cases hp : planPassword hash body.password with
  | error e1 => simp only [hp] at h; exact Except.noConfusion h
  | ok pp =>
  simp only [hp] at h
  cases hr : planRol body.rol with
  | error e1 => simp only [hr] at h; exact Except.noConfusion h
  | ok pr =>
  simp only [hr] at h
  cases ha : planActivo body.activo with
  | error e1 => simp only [ha] at h; exact Except.noConfusion h
  | ok pa =>
  simp only [ha] at h
  injection h with h2
  subst h2
  exact ⟨rfl, rfl, rfl, rfl, rfl⟩


theorem updateUsuario_cases (hash : String → String) (st : Store) (id : Nat)
    (body : Body) (dbErr : Option String) :
    (∃ s, updateUsuario hash st id body dbErr = (err400 s, st)) ∨
    (∃ s, updateUsuario hash st id body dbErr = (err500 s, st)) ∨
    (updateUsuario hash st id body dbErr = (msg404 "Usuario no encontrado", st)) ∨
    (∃ p, updPlan st id hash body = .ok p ∧ planEmpty p = false ∧
      updateUsuario hash st id body dbErr =
        (⟨200, some (.obj (updResponseFields p))⟩,
         ⟨st.rows.map (fun r => if r.idusuario == id then applyPlan r p else r),
          st.nextId, st.now⟩)) := by
  cases hg : (body.nombre == JSValue.undef && body.email == JSValue.undef &&
      body.password == JSValue.undef && body.rol == JSValue.undef &&
      body.activo == JSValue.undef) with
  | true =>
    exact .inl ⟨"Debe proporcionar al menos un campo para actualizar: nombre, email, password, rol, activo",
      by simp [updateUsuario, hg]⟩
  | false =>
    cases dbErr with
    | some m =>
      exact .inr (.inl ⟨"Ocurrió un error interno al actualizar el usuario",
        by simp [updateUsuario, hg]⟩)
    | none =>
      cases hex : st.rows.any (fun r => r.idusuario == id) with
      | false => exact .inr (.inr (.inl (by simp [updateUsuario, hg, hex])))
      | true =>
        cases hp : updPlan st id hash body with
        | error e =>
          obtain ⟨s, rfl⟩ := updPlan_error_shape hp
          exact .inl ⟨s, by simp [updateUsuario, hg, hex, hp]⟩
        | ok p =>
          cases hpe : planEmpty p with
          | true =>
            exact .inl ⟨"No hay datos válidos para actualizar",
              by simp [updateUsuario, hg, hex, hp, hpe]⟩
          | false =>
            exact .inr (.inr (.inr ⟨p, rfl, hpe,
              by simp [updateUsuario, hg, hex, hp, hpe]⟩))

theorem createUsuario_cases (hash : String → String) (st : Store) (body : Body)
    (dbErr : Option String) :
    (∃ s, createUsuario hash st body dbErr = (err400 s, st)) ∨
    (createUsuario hash st body dbErr =
      (err500 "Ocurrió un error interno al crear el usuario", st)) ∨
    (createValidationError body = none ∧
     st.rows.any (fun r => jsToLower r.email == jsToLower (strOf body.email)) = false ∧
     createUsuario hash st body dbErr =
       (⟨201, some (.obj [("idusuario", .num (Int.ofNat st.nextId)),
                          ("nombre", .str (jsTrim (strOf body.nombre))),
                          ("email", .str (jsTrim (strOf body.email))),
                          ("rol", jsonOfVal (rolWithDefault body)),
                          ("activo", jsonOfVal (activoWithDefault body))])⟩,
        ⟨st.rows ++ [createdRow hash st body], st.nextId + 1, st.now⟩)) := by
  cases hv : createValidationError body with
  | some e =>
    obtain ⟨s, rfl⟩ := createValidationError_shape hv
    exact .inl ⟨s, by simp [createUsuario, hv]⟩
  | none =>
    cases dbErr with
    | some m => exact .inr (.inl (by simp [createUsuario, hv]))
    | none =>
      cases hdup : st.rows.any (fun r => jsToLower r.email == jsToLower (strOf body.email)) with
      | true =>
        exact .inl ⟨"Ya existe un usuario con el email \"" ++ strOf body.email ++ "\"",
          by simp [createUsuario, hv, hdup]⟩
      | false => exact .inr (.inr ⟨rfl, rfl, by simp [createUsuario, hv, hdup]⟩)

theorem noPassFields_updResponseFields (p : UpdPlan) :
    noPassFields (updResponseFields p) = true := by
  rcases p with ⟨pn, pe, pp, pr, pa⟩
  cases pn <;> cases pe <;> cases pr <;> cases pa <;>
    simp [updResponseFields, noPassFields, noPass, noPass_jsonOfVal]

theorem noPassResp_update (hash : String → String) (st : Store) (id : Nat)
    (body : Body) (dbErr : Option String) :
    noPassResp (updateUsuario hash st id body dbErr).1 = true := by
  rcases updateUsuario_cases hash st id body dbErr with ⟨s, h⟩ | ⟨s, h⟩ | h | ⟨p, _, _, h⟩ <;>
    rw [h]
  · rfl
  · rfl
  · rfl
  · simp [noPassResp, noPass, noPassFields_updResponseFields]

theorem noPassResp_delete (st : Store) (id : Nat) (dbErr : Option String) :
    noPassResp (deleteUsuario st id dbErr).1 = true := by
  cases dbErr with
  | some m => rfl
  | none =>
    simp only [deleteUsuario]
    split <;> rfl


theorem errShape_err400 (s : String) : errShape (err400 s) :=
  ⟨fun _ => ⟨s, rfl⟩, fun h => by simp [err400] at h⟩

theorem errShape_err500 (s : String) : errShape (err500 s) :=
  ⟨fun _ => ⟨s, rfl⟩, fun h => by simp [err500] at h⟩

theorem errShape_msg404 (s : String) : errShape (msg404 s) :=
  ⟨fun h => by simp [msg404] at h, fun _ => ⟨s, rfl⟩⟩

theorem errShape_success (n : Nat) (b : Option JSON) (h4 : n ≠ 400) (h5 : n ≠ 500)
    (hn : n ≠ 404) : errShape ⟨n, b⟩ :=
  ⟨fun h => (h.elim h4 h5).elim, fun h => (hn h).elim⟩

theorem errShape_getAll (st : Store) (dbErr : Option String) :
    errShape (getAllUsuarios st dbErr) := by
  cases dbErr with
  | some m => exact errShape_err500 m
  | none => exact errShape_success 200 _ (by decide) (by decide) (by decide)

theorem errShape_getById (st : Store) (id : Nat) (dbErr : Option String) :
    errShape (getUsuarioById st id dbErr) := by
  cases dbErr with
  | some m => exact errShape_err500 m
  | none =>
    unfold getUsuarioById
    cases st.rows.find? (fun r => r.idusuario == id) with
    | none => exact errShape_msg404 _
    | some r => exact errShape_success 200 _ (by decide) (by decide) (by decide)

theorem errShape_create (hash : String → String) (st : Store) (body : Body)
    (dbErr : Option String) : errShape (createUsuario hash st body dbErr).1 := by
  rcases createUsuario_cases hash st body dbErr with ⟨s, h⟩ | h | ⟨-, -, h⟩ <;> rw [h]
  · exact errShape_err400 s
  · exact errShape_err500 _
  · exact errShape_success 201 _ (by decide) (by decide) (by decide)

theorem errShape_update (hash : String → String) (st : Store) (id : Nat)
    (body : Body) (dbErr : Option String) : errShape (updateUsuario hash st id body dbErr).1 := by
  rcases updateUsuario_cases hash st id body dbErr with ⟨s, h⟩ | ⟨s, h⟩ | h | ⟨p, -, -, h⟩ <;>
    rw [h]
  · exact errShape_err400 s
  · exact errShape_err500 s
  · exact errShape_msg404 _
  · exact errShape_success 200 _ (by decide) (by decide) (by decide)

theorem errShape_delete (st : Store) (id : Nat) (dbErr : Option String) :
    errShape (deleteUsuario st id dbErr).1 := by
  cases dbErr with
  | some m => exact errShape_err500 m
  | none =>
    simp only [deleteUsuario]
    split
    · exact errShape_msg404 _
    · exact errShape_success 204 _ (by decide) (by decide) (by decide)

/-- C1: no handler response, for any request and either outcome of the store,
ever carries a `password` or `passwordHash` field in its JSON body. -/
theorem c1_no_password_field_in_any_response (hash : String → String) (st : Store)
    (body : Body) (id : Nat) (dbErr : Option String) :
    noPassResp (getAllUsuarios st dbErr) = true ∧
    noPassResp (getUsuarioById st id dbErr) = true ∧
    noPassResp (createUsuario hash st body dbErr).1 = true ∧
    noPassResp (updateUsuario hash st id body dbErr).1 = true ∧
    noPassResp (deleteUsuario st id dbErr).1 = true :=
  ⟨noPassResp_getAll st dbErr, noPassResp_getById st id dbErr,
   noPassResp_create hash st body dbErr, noPassResp_update hash st id body dbErr,
   noPassResp_delete st id dbErr⟩

/-- C8: across all five handlers, every 400/500 response body is
`{error: string}` and every 404 response body is `{message: string}`. -/
theorem c8_error_body_shapes (hash : String → String) (st : Store)
    (body : Body) (id : Nat) (dbErr : Option String) :
    errShape (getAllUsuarios st dbErr) ∧
    errShape (getUsuarioById st id dbErr) ∧
    errShape (createUsuario hash st body dbErr).1 ∧
    errShape (updateUsuario hash st id body dbErr).1 ∧
    errShape (deleteUsuario st id dbErr).1 :=
  ⟨errShape_getAll st dbErr, errShape_getById st id dbErr,
   errShape_create hash st body dbErr, errShape_update hash st id body dbErr,
   errShape_delete st id dbErr⟩


theorem nombreInvalid_eq (v : JSValue) : updateNombreInvalid v = createNombreInvalid v := by
  cases v with
  | str s =>
    by_cases h : s = ""
    · subst h; rfl
    · simp [createNombreInvalid, updateNombreInvalid, toBool, isStr, strOf, h]
  | undef => rfl
  | null => rfl
  | bool b => cases b <;> rfl
  | num n => simp [createNombreInvalid, updateNombreInvalid, toBool, isStr, strOf]
  | nan => rfl

theorem emailInvalid_eq (v : JSValue) : updateEmailInvalid v = createEmailInvalid v := by
  cases v with
  | str s =>
    by_cases h : s = ""
    · subst h; rfl
    · simp [createEmailInvalid, updateEmailInvalid, toBool, isStr, strOf, h]
  | undef => rfl
  | null => rfl
  | bool b => cases b <;> rfl
  | num n => simp [createEmailInvalid, updateEmailInvalid, toBool, isStr, strOf]
  | nan => rfl

theorem passwordInvalid_eq (v : JSValue) : updatePasswordInvalid v = createPasswordInvalid v := by
  cases v with
  | str s =>
    by_cases h : s = ""
    · subst h; rfl
    · simp [createPasswordInvalid, updatePasswordInvalid, toBool, isStr, strOf, h]
  | undef => rfl
  | null => rfl
  | bool b => cases b <;> rfl
  | num n => simp [createPasswordInvalid, updatePasswordInvalid, toBool, isStr, strOf]
  | nan => rfl

/-- C9: each of the five per-field checks of `updateUsuario` accepts exactly
the values the corresponding check of `createUsuario` accepts. -/
theorem c9_update_validation_equals_create_validation (v : JSValue) :
    updateNombreInvalid v = createNombreInvalid v ∧
    updateEmailInvalid v = createEmailInvalid v ∧
    updatePasswordInvalid v = createPasswordInvalid v ∧
    updateRolInvalid v = createRolInvalid v ∧
    updateActivoInvalid v = createActivoInvalid v :=
  ⟨nombreInvalid_eq v, emailInvalid_eq v, passwordInvalid_eq v, rfl, rfl⟩

/-- C5: a supplied `activo` value is accepted (by the identical check of both
handlers) exactly when `Number(·)` coercion yields 0 or 1; 0, 1, "0", "1"
pass, while 2, -1 and "yes" are rejected with the activo error. -/
theorem c5_activo_acceptance_is_numeric_coercion :
    (∀ v, createActivoInvalid v = false ↔ (toNumber v = some 0 ∨ toNumber v = some 1)) ∧
    (∀ v, updateActivoInvalid v = createActivoInvalid v) ∧
    createActivoInvalid (.num 0) = false ∧
    createActivoInvalid (.num 1) = false ∧
    createActivoInvalid (.str "0") = false ∧
    createActivoInvalid (.str "1") = false ∧
    createActivoInvalid (.num 2) = true ∧
    createActivoInvalid (.num (-1)) = true ∧
    createActivoInvalid (.str "yes") = true ∧
    createUsuario hId st1 (bodyAct (.str "yes")) none = (err400 "El campo activo debe ser 0 o 1", st1) ∧
    updateUsuario hId st1 1 (updBodyAct (.num 2)) none = (err400 "El campo activo debe ser 0 o 1", st1) := by
  refine ⟨fun v => ?_, fun v => rfl, by decide, by decide, by decide, by decide,
    by decide, by decide, by decide, rfl, rfl⟩
  simp [createActivoInvalid]
  tauto

/-- C4: `createUsuario` validates nombre, email, password, rol, activo in that
order; the first failing field yields its 400 response with the store
untouched, for every store, hash function and store-error disposition. -/
theorem c4_create_validation_order (hash : String → String) (st : Store)
    (body : Body) (dbErr : Option String) :
    (createNombreInvalid body.nombre = true →
      createUsuario hash st body dbErr =
        (err400 "El campo nombre es requerido y debe ser una cadena válida", st)) ∧
    (createNombreInvalid body.nombre = false →
     createEmailInvalid body.email = true →
      createUsuario hash st body dbErr =
        (err400 "El campo email es requerido y debe ser un email válido", st)) ∧
    (createNombreInvalid body.nombre = false →
     createEmailInvalid body.email = false →
     createPasswordInvalid body.password = true →
      createUsuario hash st body dbErr =
        (err400 "El campo password es requerido y debe tener al menos 6 caracteres", st)) ∧
    (createNombreInvalid body.nombre = false →
     createEmailInvalid body.email = false →
     createPasswordInvalid body.password = false →
     createRolInvalid (rolWithDefault body) = true →
      createUsuario hash st body dbErr =
        (err400 "El campo rol debe ser \"cliente\" o \"admin\"", st)) ∧
    (createNombreInvalid body.nombre = false →
     createEmailInvalid body.email = false →
     createPasswordInvalid body.password = false →
     createRolInvalid (rolWithDefault body) = false →
     createActivoInvalid (activoWithDefault body) = true →
      createUsuario hash st body dbErr =
        (err400 "El campo activo debe ser 0 o 1", st)) := by
  refine ⟨?_, ?_, ?_, ?_, ?_⟩ <;> intros <;>
    simp [createUsuario, createValidationError, *]

/-- C6: `updateUsuario` with an all-absent body fails with the must-supply
400 before any store access (even when the store would fail), and whenever
its response is a 400 the store is returned unchanged. -/
theorem c6_update_no_write_on_validation_failure (hash : String → String) (st : Store)
    (id : Nat) (body : Body) (dbErr : Option String) :
    ((body.nombre == JSValue.undef && body.email == JSValue.undef &&
      body.password == JSValue.undef && body.rol == JSValue.undef &&
      body.activo == JSValue.undef) = true →
      updateUsuario hash st id body dbErr =
        (err400 "Debe proporcionar al menos un campo para actualizar: nombre, email, password, rol, activo", st)) ∧
    ((updateUsuario hash st id body dbErr).1.status = 400 →
      (updateUsuario hash st id body dbErr).2 = st) := by
  constructor
  · intro hg
    simp [updateUsuario, hg]
  · intro h4
    rcases updateUsuario_cases hash st id body dbErr with ⟨s, h⟩ | ⟨s, h⟩ | h | ⟨p, hp, hpe, h⟩
    · rw [h]
    · rw [h]
    · rw [h]
    · rw [h] at h4
      simp at h4

/-- C10: in `updateUsuario` a field counts as supplied when it is not
undefined, so `nombre: null` (on an existing id) is validated and rejected
with the name-format 400, not the must-supply 400. -/
theorem c10_null_nombre_counts_as_supplied (hash : String → String) (st : Store)
    (id : Nat) (h : st.rows.any (fun r => r.idusuario == id) = true) :
    updateUsuario hash st id bodyNullNombre none =
      (err400 "El campo nombre debe ser una cadena válida", st) := by
  simp [updateUsuario, bodyNullNombre, h, updPlan, planNombre, updateNombreInvalid, isStr, strOf]

theorem c10_witness :
    updateUsuario hId st1 1 bodyNullNombre none =
      (err400 "El campo nombre debe ser una cadena válida", st1) :=
  c10_null_nombre_counts_as_supplied hId st1 1 rfl

/-- C7: an update supplying only `rol: "admin"` on an existing id updates
exactly the rol column of the matching row (all other columns of every row
are preserved) and responds 200 with exactly `{rol: "admin"}`. -/
theorem c7_update_only_rol (hash : String → String) (st : Store) (id : Nat)
    (h : st.rows.any (fun r => r.idusuario == id) = true) :
    updateUsuario hash st id bodyRolAdmin none =
      (⟨200, some (.obj [("rol", .str "admin")])⟩,
       ⟨st.rows.map (fun r =>
          if r.idusuario == id then { r with rol := .str "admin" } else r),
        st.nextId, st.now⟩) := by
  simp [updateUsuario, bodyRolAdmin, h, updPlan, planNombre, planEmail, planPassword,
    planRol, planActivo, updateRolInvalid, planEmpty, updResponseFields, applyPlan, jsonOfVal]

theorem c7_witness :
    updateUsuario hId st1 1 bodyRolAdmin none =
      (⟨200, some (.obj [("rol", .str "admin")])⟩,
       ⟨st1.rows.map (fun r =>
          if r.idusuario == 1 then { r with rol := .str "admin" } else r),
        st1.nextId, st1.now⟩) :=
  c7_update_only_rol hId st1 1 rfl


theorem createValidationError_none {body : Body} (h : createValidationError body = none) :
    createNombreInvalid body.nombre = false ∧
    createEmailInvalid body.email = false ∧
    createPasswordInvalid body.password = false ∧
    createRolInvalid (rolWithDefault body) = false ∧
    createActivoInvalid (activoWithDefault body) = false := by
  unfold createValidationError at h
  split_ifs at h with h1 h2 h3 h4 h5 <;>
    first
      | exact Option.noConfusion h
      | (simp only [Bool.not_eq_true] at h1 h2 h3 h4 h5; exact ⟨h1, h2, h3, h4, h5⟩)

theorem rolOK_of_valid {v : JSValue} (h : createRolInvalid v = false) : rolOK v := by
  have h2 : (v == JSValue.str "cliente" || v == JSValue.str "admin") = true := by
    cases hx : (v == JSValue.str "cliente" || v == JSValue.str "admin") with
    | true => rfl
    | false => unfold createRolInvalid at h; rw [hx] at h; exact Bool.noConfusion h
  rcases (Bool.or_eq_true _ _).mp h2 with h3 | h3
  · exact .inl (by simpa using h3)
  · exact .inr (by simpa using h3)

theorem activoCoercesOK_of_valid {v : JSValue} (h : createActivoInvalid v = false) :
    activoCoercesOK v := by
  have h2 : (toNumber v == some 0 || toNumber v == some 1) = true := by
    cases hx : (toNumber v == some 0 || toNumber v == some 1) with
    | true => rfl
    | false => unfold createActivoInvalid at h; rw [hx] at h; exact Bool.noConfusion h
  rcases (Bool.or_eq_true _ _).mp h2 with h3 | h3
  · exact .inl (by simpa using h3)
  · exact .inr (by simpa using h3)

theorem planRol_ok_val {v : JSValue} {pr : Option JSValue} (h : planRol v = .ok pr) :
    ∀ w, pr = some w → rolOK w := by
  unfold planRol at h
  split_ifs at h with h1 h2 <;>
    first
      | exact Except.noConfusion h
      | (injection h with h3; intro w hw; rw [← h3] at hw; exact Option.noConfusion hw)
      | (injection h with h3; intro w hw; rw [← h3] at hw; injection hw with hw2; subst hw2;
         exact rolOK_of_valid (by simpa using h2))

theorem planActivo_ok_val {v : JSValue} {pa : Option JSValue} (h : planActivo v = .ok pa) :
    ∀ w, pa = some w → activoCoercesOK w := by
  unfold planActivo at h
  split_ifs at h with h1 h2 <;>
    first
      | exact Except.noConfusion h
      | (injection h with h3; intro w hw; rw [← h3] at hw; exact Option.noConfusion hw)
      | (injection h with h3; intro w hw; rw [← h3] at hw; injection hw with hw2; subst hw2;
         exact activoCoercesOK_of_valid (by simpa using h2))

/-- C3 (amended): every row added by `createUsuario` has a rol in
{cliente, admin} and an activo whose `Number(·)` coercion is 0 or 1, and every
rol/activo value `updateUsuario` queues for writing satisfies the same; the
raw activo value itself (e.g. the string "1") is what gets stored. -/
theorem c3_written_rol_valid_and_activo_coerces (hash : String → String) (st : Store)
    (body : Body) (id : Nat) (dbErr : Option String) :
    (∀ r ∈ (createUsuario hash st body dbErr).2.rows,
      r ∈ st.rows ∨ (rolOK r.rol ∧ activoCoercesOK r.activo)) ∧
    (∀ p, updPlan st id hash body = .ok p →
      (∀ v, p.rol = some v → rolOK v) ∧ (∀ v, p.activo = some v → activoCoercesOK v)) := by
  constructor
  · rcases createUsuario_cases hash st body dbErr with ⟨s, h⟩ | h | ⟨hv, hdup, h⟩ <;> rw [h]
    · exact fun r hr => .inl hr
    · exact fun r hr => .inl hr
    · intro r hr
      rcases List.mem_append.mp hr with hl | hr2
      · exact .inl hl
      · right
        obtain ⟨-, -, -, h4, h5⟩ := createValidationError_none hv
        rcases List.mem_singleton.mp hr2 with rfl
        exact ⟨rolOK_of_valid h4, activoCoercesOK_of_valid h5⟩
  · intro p hp
    obtain ⟨-, -, -, hr, ha⟩ := updPlan_ok hp
    exact ⟨planRol_ok_val hr, planActivo_ok_val ha⟩

/-- C3 counterexample: creating with `activo: "1"` succeeds (201) but the
stored row's activo column holds the string `"1"`, not the number 0 or 1. -/
theorem c3_counterexample :
    (createUsuario hId st1 (bodyAct (.str "1")) none).1.status = 201 ∧
    ¬ (∀ r ∈ (createUsuario hId st1 (bodyAct (.str "1")) none).2.rows,
        (r.rol = JSValue.str "cliente" ∨ r.rol = JSValue.str "admin") ∧
        (r.activo = JSValue.num 0 ∨ r.activo = JSValue.num 1)) := by
  decide


theorem planEmail_ok_none {st : Store} {id : Nat} {v : JSValue} {pe : Option String}
    (h : planEmail st id v = .ok pe) (hu : v = .undef) : pe = none := by
  subst hu
  unfold planEmail at h
  simp at h
  exact h.symm

theorem planEmail_ok_some {st : Store} {id : Nat} {v : JSValue} {pe : Option String}
    (h : planEmail st id v = .ok pe) (hu : v ≠ .undef) :
    pe = some (jsTrim (strOf v)) ∧
    st.rows.any (fun r => jsToLower r.email == jsToLower (strOf v) && r.idusuario != id) = false := by
  unfold planEmail at h
  split_ifs at h with h1 h2 h3 <;>
    first
      | exact absurd (by simpa using h1) hu
      | exact Except.noConfusion h
      | (injection h with h4; exact ⟨h4.symm, by simpa using h3⟩)

/-- C2 (amended): starting from a store whose rows have pairwise distinct ids
and pairwise case-insensitively distinct emails, `createUsuario` and
`updateUsuario` preserve email uniqueness whenever the supplied email value
has no surrounding whitespace (`email.trim() === email`); with surrounding
whitespace the duplicate check (which compares the untrimmed email) can be
bypassed while the trimmed email is stored. -/
theorem c2_email_uniqueness_preserved (hash : String → String) (st : Store) (id : Nat)
    (body : Body) (dbErr : Option String)
    (hids : idsOK st.rows) (hem : emailsOK st.rows)
    (htrim : jsTrim (strOf body.email) = strOf body.email) :
    emailsOK (createUsuario hash st body dbErr).2.rows ∧
    emailsOK (updateUsuario hash st id body dbErr).2.rows := by
  constructor
  · rcases createUsuario_cases hash st body dbErr with ⟨s, h⟩ | h | ⟨hv, hdup, h⟩ <;> rw [h]
    · exact hem
    · exact hem
    · show (st.rows ++ [createdRow hash st body]).Pairwise
        (fun a b => jsToLower a.email ≠ jsToLower b.email)
      rw [List.pairwise_append]
      refine ⟨hem, List.pairwise_singleton _ _, ?_⟩
      intro a ha b hb
      rcases List.mem_singleton.mp hb with rfl
      show jsToLower a.email ≠ jsToLower (createdRow hash st body).email
      have hce : (createdRow hash st body).email = strOf body.email := htrim
      rw [hce]
      have hx := List.any_eq_false.mp hdup a ha
      simpa using hx
  · rcases updateUsuario_cases hash st id body dbErr with ⟨s, h⟩ | ⟨s, h⟩ | h | ⟨p, hp, hpe, h⟩ <;>
      rw [h]
    · exact hem
    · exact hem
    · exact hem
    · obtain ⟨-, he, -, -, -⟩ := updPlan_ok hp
      show (st.rows.map fun r => if r.idusuario == id then applyPlan r p else r).Pairwise
        (fun a b => jsToLower a.email ≠ jsToLower b.email)
      rw [List.pairwise_map]
      by_cases hu : body.email = .undef
      · have hpe_none : p.email = none := planEmail_ok_none he hu
        have hfe : ∀ r : Row, (if r.idusuario == id then applyPlan r p else r).email = r.email := by
          intro r
          by_cases hr : (r.idusuario == id) = true
          · simp [hr, applyPlan, hpe_none]
          · simp [hr]
        exact hem.imp fun {a b} hab => by rw [hfe a, hfe b]; exact hab
      · obtain ⟨hpe_some, hnodup⟩ := planEmail_ok_some he hu
        have hinfo : ∀ r ∈ st.rows, jsToLower r.email = jsToLower (strOf body.email) →
            r.idusuario = id := by
          intro r hrMem hrEq
          have hx := List.any_eq_false.mp hnodup r hrMem
          simp [hrEq] at hx
          exact hx
        refine List.Pairwise.imp_of_mem ?_ (hem.and hids)
        intro a b haMem hbMem hab
        obtain ⟨habEmail, habId⟩ := hab
        have hfe : ∀ r : Row,
            (if r.idusuario == id then applyPlan r p else r).email =
              if r.idusuario = id then strOf body.email else r.email := by
          intro r
          by_cases hr : r.idusuario = id
          · simp [hr, applyPlan, hpe_some, htrim]
          · simp [hr]
        show jsToLower (if a.idusuario == id then applyPlan a p else a).email ≠
             jsToLower (if b.idusuario == id then applyPlan b p else b).email
        rw [hfe a, hfe b]
        by_cases haId : a.idusuario = id <;> by_cases hbId : b.idusuario = id
        · exact absurd (haId.trans hbId.symm) habId
        · simp only [haId, hbId, if_true, if_false]
          intro heq
          exact hbId (hinfo b hbMem heq.symm)
        · simp only [haId, hbId, if_true, if_false]
          intro heq
          exact haId (hinfo a haMem heq)
        · simp only [haId, hbId, if_false]
          exact habEmail

theorem c2_witness :
    emailsOK (createUsuario hId st1 bodyAna none).2.rows ∧
    emailsOK (updateUsuario hId st1 1 bodyAna none).2.rows :=
  c2_email_uniqueness_preserved hId st1 1 bodyAna none (by decide) (by decide) (by decide)

/-- C2 counterexample: `st1` satisfies the email (and id) invariant, yet
creating a user whose email is `" a@x.com"` (leading space) succeeds with 201
and leaves two rows with case-insensitively equal emails. -/
theorem c2_counterexample :
    emailsOK st1.rows ∧ idsOK st1.rows ∧
    (createUsuario hId st1 bodyDup none).1.status = 201 ∧
    ¬ emailsOK (createUsuario hId st1 bodyDup none).2.rows := by
  decide

end UsuarioController
